import Mathlib

/-!
Shallow embedding of the auth microservice token lifecycle
(users entity, TokenService over Redis, AuthService, passport JWT
strategies, microservice controller).

Modelling conventions:
* Time is a `Nat` of seconds; every operation takes the current instant
  `now` explicitly.  Redis `SET key val EX ttl` stores the absolute expiry
  `now + ttl`; a key is visible at `t` iff `t < expiry` and `GET` of an
  expired or absent key yields `none`.
* A signed JWT is a structure carrying its payload, `iat`, `exp` and the
  secret it was signed with; verification succeeds iff the verifying secret
  equals the signing secret and the token is unexpired.  A string that is
  not a JWT at all is the `garbage` constructor; verification rejects it.
* `bcrypt` is modelled by its functional contract: `compare(t, h)` succeeds
  iff `h` was produced by hashing `t`.
* Redis keys `refresh:{userId}` and `blacklist:{jti}` are represented by an
  inductive key type; the two string prefixes never collide, so this is
  faithful.
* Store unavailability is an `avail` flag on the store state; every client
  call fails with `StoreErr.unavailable` when it is false, modelling a
  rejected promise (a thrown exception at the await site).
* `uuidv4()` results are passed in as explicit `jti` arguments; freshness
  becomes a hypothesis where a claim needs it.
-/

deriving instance DecidableEq for Except

/-- Mirrors the `users` entity: id, email, password hash, optional names,
active flag (default true), roles (default `["user"]`). -/
structure User where
  id : String
  email : String
  password : String
  firstName : Option String
  lastName : Option String
  isActive : Bool
  roles : List String
deriving DecidableEq

/-- The access-token claims built in `AuthService.generateTokens`:
`{ sub: user.id, email: user.email, roles: user.roles, jti }`. -/
structure AccessPayload where
  sub : String
  email : String
  roles : List String
  jti : String
deriving DecidableEq

/-- A signed access JWT: payload plus the `iat`/`exp` instants and the
secret used to sign it. -/
structure AccessJwt where
  payload : AccessPayload
  iat : Nat
  exp : Nat
  secret : String
deriving DecidableEq

/-- A signed refresh JWT; its only claim is `{ sub: user.id }`. -/
structure RefreshJwt where
  sub : String
  iat : Nat
  exp : Nat
  secret : String
deriving DecidableEq

/-- A string presented as an access token: either a well-formed signed JWT
or arbitrary malformed input. -/
inductive AccessInput
  | jwt (t : AccessJwt)
  | garbage (s : String)
deriving DecidableEq

/-- A string presented as a refresh token. -/
inductive RefreshInput
  | jwt (t : RefreshJwt)
  | garbage (s : String)
deriving DecidableEq

/-- Values stored in Redis by this service: the literal `"1"` written by
`blacklistToken`, or a bcrypt hash of a refresh token. -/
inductive RVal
  | one
  | refreshHash (rt : RefreshJwt)
deriving DecidableEq

/-- `bcrypt.hash(rt, 10)` under the black-box slow-hash contract. -/
def bcryptHash (rt : RefreshJwt) : RVal :=
  RVal.refreshHash rt

/-- `bcrypt.compare(incoming, stored)`: succeeds iff `stored` is the hash
of `incoming`. -/
def bcryptCompare (incoming : RefreshJwt) (stored : RVal) : Bool :=
  stored == bcryptHash incoming

/-- The Redis keys this service uses: `refresh:{userId}` and
`blacklist:{jti}`.  The two prefixes never collide. -/
inductive RKey
  | refresh (userId : String)
  | blacklist (jti : String)
deriving DecidableEq

/-- A live Redis entry: stored value and absolute expiry instant. -/
structure REntry where
  val : RVal
  expAt : Nat
deriving DecidableEq

/-- The Redis connection state: availability flag plus keyspace. -/
@[ext]
structure RedisState where
  avail : Bool
  store : RKey → Option REntry

/-- Infrastructure failure of the token store. -/
inductive StoreErr
  | unavailable
deriving DecidableEq

namespace Redis

/-- `SET key val EX ttl` at instant `now`. -/
def setEx (st : RedisState) (k : RKey) (v : RVal) (ttl now : Nat) :
    Except StoreErr RedisState :=
  if st.avail then
    .ok { st with store := fun k' => if k' = k then some ⟨v, now + ttl⟩ else st.store k' }
  else .error .unavailable

/-- `GET key` at instant `now`; expired keys read as absent. -/
def get (st : RedisState) (k : RKey) (now : Nat) :
    Except StoreErr (Option RVal) :=
  if st.avail then
    .ok (match st.store k with
      | some e => if now < e.expAt then some e.val else none
      | none => none)
  else .error .unavailable

/-- `DEL key`; deleting an absent key is a no-op. -/
def del (st : RedisState) (k : RKey) : Except StoreErr RedisState :=
  if st.avail then
    .ok { st with store := fun k' => if k' = k then none else st.store k' }
  else .error .unavailable

end Redis

namespace TokenService

/-- `saveRefreshToken(userId, token, ttlSeconds = 604800)`:
`SET refresh:{userId} token EX ttlSeconds`. -/
def saveRefreshToken (st : RedisState) (userId : String) (token : RVal)
    (now ttlSeconds : Nat) : Except StoreErr RedisState :=
  Redis.setEx st (RKey.refresh userId) token ttlSeconds now

/-- `getRefreshToken(userId)`: `GET refresh:{userId}`. -/
def getRefreshToken (st : RedisState) (userId : String) (now : Nat) :
    Except StoreErr (Option RVal) :=
  Redis.get st (RKey.refresh userId) now

/-- `deleteRefreshToken(userId)`: `DEL refresh:{userId}`. -/
def deleteRefreshToken (st : RedisState) (userId : String) :
    Except StoreErr RedisState :=
  Redis.del st (RKey.refresh userId)

/-- `blacklistToken(jti, ttlSeconds)`: `SET blacklist:{jti} "1" EX ttl`. -/
def blacklistToken (st : RedisState) (jti : String) (ttlSeconds now : Nat) :
    Except StoreErr RedisState :=
  Redis.setEx st (RKey.blacklist jti) RVal.one ttlSeconds now

/-- `isBlacklisted(jti)`: `GET blacklist:{jti}` compared against null. -/
def isBlacklisted (st : RedisState) (jti : String) (now : Nat) :
    Except StoreErr Bool :=
  match Redis.get st (RKey.blacklist jti) now with
  | .error e => .error e
  | .ok r => .ok r.isSome

end TokenService

/-- The JWT configuration surface: the two secrets and the two lifetimes
(`jwt.accessSecret`, `jwt.refreshSecret`, `jwt.accessExpiresIn`,
`jwt.refreshExpiresIn`). -/
structure AuthConfig where
  accessSecret : String
  refreshSecret : String
  accessExpiresIn : Nat
  refreshExpiresIn : Nat
deriving DecidableEq

namespace JwtService

/-- `jwtService.signAsync(payload, {secret, expiresIn})` for the access
payload at instant `now`. -/
def signAccess (payload : AccessPayload) (secret : String)
    (expiresIn now : Nat) : AccessJwt :=
  ⟨payload, now, now + expiresIn, secret⟩

/-- `jwtService.signAsync({sub}, {secret, expiresIn})` for the refresh
token. -/
def signRefresh (sub : String) (secret : String) (expiresIn now : Nat) :
    RefreshJwt :=
  ⟨sub, now, now + expiresIn, secret⟩

/-- `jwtService.verify(token, {secret})` and the passport-jwt verification
(`secretOrKey`, `ignoreExpiration: false`): `none` models a thrown or
propagated verification error (malformed input, wrong signature, or
expiry). -/
def verifyAccess (tok : AccessInput) (secret : String) (now : Nat) :
    Option AccessPayload :=
  match tok with
  | .garbage _ => none
  | .jwt t => if t.secret = secret ∧ now < t.exp then some t.payload else none

/-- Passport verification of a presented refresh token against the refresh
secret. -/
def verifyRefresh (tok : RefreshInput) (secret : String) (now : Nat) :
    Option RefreshJwt :=
  match tok with
  | .garbage _ => none
  | .jwt t => if t.secret = secret ∧ now < t.exp then some t else none

end JwtService

namespace UsersService

/-- `usersService.findById(id)` over the user directory. -/
def findById (users : List User) (id : String) : Option User :=
  users.find? (fun u => u.id == id)

end UsersService

/-- The `{ id, email, roles }` projection returned beside the tokens. -/
structure PublicUser where
  id : String
  email : String
  roles : List String
deriving DecidableEq

/-- The result of `generateTokens`: `{ accessToken, refreshToken, user }`. -/
structure TokenPair where
  accessToken : AccessJwt
  refreshToken : RefreshJwt
  user : PublicUser
deriving DecidableEq

/-- The result shape of `validateToken`:
`{ valid: boolean, payload?: any }`. -/
structure ValidateResult where
  valid : Bool
  payload : Option AccessPayload
deriving DecidableEq

/-- Exceptions that can escape the body of the `try` block in
`validateToken`: a JWT verification error or a store failure. -/
inductive AuthExn
  | jwtError
  | storeError
deriving DecidableEq

namespace AuthService

/-- `generateTokens(user)`: mint the payload with a fresh `jti`, sign the
access and refresh tokens, store the bcrypt hash of the refresh token
under the subject, and return the pair.  `jti` is the `uuidv4()` result;
`604800` is the source default `ttlSeconds` of `saveRefreshToken`. -/
def generateTokens (user : User) (cfg : AuthConfig) (jti : String)
    (now : Nat) (st : RedisState) : Except StoreErr (TokenPair × RedisState) :=
  let payload : AccessPayload := ⟨user.id, user.email, user.roles, jti⟩
  let accessToken := JwtService.signAccess payload cfg.accessSecret cfg.accessExpiresIn now
  let refreshToken := JwtService.signRefresh user.id cfg.refreshSecret cfg.refreshExpiresIn now
  let hashed := bcryptHash refreshToken
  match TokenService.saveRefreshToken st user.id hashed now 604800 with
  | .error e => .error e
  | .ok st' => .ok (⟨accessToken, refreshToken, ⟨user.id, user.email, user.roles⟩⟩, st')

/-- `login(user)` delegates to `generateTokens`. -/
def login (user : User) (cfg : AuthConfig) (jti : String) (now : Nat)
    (st : RedisState) : Except StoreErr (TokenPair × RedisState) :=
  generateTokens user cfg jti now st

/-- `refresh(user)` delegates to `generateTokens`. -/
def refresh (user : User) (cfg : AuthConfig) (jti : String) (now : Nat)
    (st : RedisState) : Except StoreErr (TokenPair × RedisState) :=
  generateTokens user cfg jti now st

/-- `logout(userId, jti)`: blacklist `jti` with the fixed
`accessTtl = 15 * 60` and delete the refresh record.  The two
`Promise.all` writes touch distinct key shapes, so sequencing them is
faithful. -/
def logout (st : RedisState) (userId jti : String) (now : Nat) :
    Except StoreErr (RedisState × String) :=
  match TokenService.blacklistToken st jti (15 * 60) now with
  | .error e => .error e
  | .ok st1 =>
    match TokenService.deleteRefreshToken st1 userId with
    | .error e => .error e
    | .ok st2 => .ok (st2, "Logged out successfully")

/-- The body of the `try` block of `validateToken`, before the `catch`:
verify the JWT (which may throw), then consult the blacklist (which may
throw on store failure).  The second component records which store keys
the run read. -/
def validateTokenTry (tok : AccessInput) (cfg : AuthConfig)
    (st : RedisState) (now : Nat) :
    Except AuthExn ValidateResult × List RKey :=
  match JwtService.verifyAccess tok cfg.accessSecret now with
  | none => (.error .jwtError, [])
  | some p =>
    match TokenService.isBlacklisted st p.jti now with
    | .error _ => (.error .storeError, [RKey.blacklist p.jti])
    | .ok true => (.ok ⟨false, none⟩, [RKey.blacklist p.jti])
    | .ok false => (.ok ⟨true, some p⟩, [RKey.blacklist p.jti])

/-- `validateToken(token)`: the `try` body with every exception caught and
normalised to `{ valid: false }`. -/
def validateToken (tok : AccessInput) (cfg : AuthConfig) (st : RedisState)
    (now : Nat) : ValidateResult :=
  match (validateTokenTry tok cfg st now).1 with
  | .ok r => r
  | .error _ => ⟨false, none⟩

/-- The store keys a `validateToken` run reads. -/
def storeReads (tok : AccessInput) (cfg : AuthConfig) (st : RedisState)
    (now : Nat) : List RKey :=
  (validateTokenTry tok cfg st now).2

end AuthService

/-- The result shape of `getUserFromToken`: `{ user }` or `{ error }`. -/
inductive UserFromTokenResult
  | user (payload : Option AccessPayload)
  | error (msg : String)
deriving DecidableEq

namespace AuthMicroserviceController

/-- Message pattern `auth.validate_token`: forwards to
`authService.validateToken`. -/
def validateToken (tok : AccessInput) (cfg : AuthConfig) (st : RedisState)
    (now : Nat) : ValidateResult :=
  AuthService.validateToken tok cfg st now

/-- Message pattern `auth.get_user_from_token`: maps an invalid result to
`{ error: 'Invalid or expired token' }` and a valid one to
`{ user: result.payload }`. -/
def getUserFromToken (tok : AccessInput) (cfg : AuthConfig)
    (st : RedisState) (now : Nat) : UserFromTokenResult :=
  let result := AuthService.validateToken tok cfg st now
  if result.valid then .user result.payload
  else .error "Invalid or expired token"

end AuthMicroserviceController

/-- Rejections of the local access-token guard (`jwt` strategy): passport
verification failure, revoked `jti`, missing or inactive user, or a store
failure escaping `validate`. -/
inductive GuardErr
  | unauthorizedJwt
  | revoked
  | userNotFoundOrInactive
  | storeError
deriving DecidableEq

/-- What `JwtStrategy.validate` attaches to the request:
`{ id, email, roles, jti }` taken from the directory record and the token. -/
structure GuardUser where
  id : String
  email : String
  roles : List String
  jti : String
deriving DecidableEq

namespace JwtStrategy

/-- The full local guard path: passport verifies signature and expiry
against the access secret, then `validate` checks the blacklist and looks
the subject up in the directory, rejecting missing or inactive users. -/
def validate (tok : AccessInput) (cfg : AuthConfig) (users : List User)
    (st : RedisState) (now : Nat) : Except GuardErr GuardUser :=
  match JwtService.verifyAccess tok cfg.accessSecret now with
  | none => .error .unauthorizedJwt
  | some p =>
    match TokenService.isBlacklisted st p.jti now with
    | .error _ => .error .storeError
    | .ok true => .error .revoked
    | .ok false =>
      match UsersService.findById users p.sub with
      | none => .error .userNotFoundOrInactive
      | some u =>
        if u.isActive then .ok ⟨u.id, u.email, u.roles, p.jti⟩
        else .error .userNotFoundOrInactive

end JwtStrategy

/-- Rejections of the refresh guard (`jwt-refresh` strategy), one per
source outcome: passport verification failure, `Refresh token expired or
not found`, `Invalid refresh token`, `User not found`, or a store failure. -/
inductive RefreshErr
  | unauthorizedJwt
  | notFound
  | invalidToken
  | userNotFound
  | storeError
deriving DecidableEq

namespace JwtRefreshStrategy

/-- The full refresh guard path: passport verifies the presented refresh
token against the refresh secret (signature and expiry), then `validate`
loads the stored hash for `payload.sub`, bcrypt-compares the incoming
token against it, and loads the user. -/
def validate (tok : RefreshInput) (cfg : AuthConfig) (users : List User)
    (st : RedisState) (now : Nat) : Except RefreshErr User :=
  match JwtService.verifyRefresh tok cfg.refreshSecret now with
  | none => .error .unauthorizedJwt
  | some t =>
    match TokenService.getRefreshToken st t.sub now with
    | .error _ => .error .storeError
    | .ok none => .error .notFound
    | .ok (some stored) =>
      if bcryptCompare t stored then
        match UsersService.findById users t.sub with
        | none => .error .userNotFound
        | some user => .ok user
      else .error .invalidToken

end JwtRefreshStrategy

/-- The refresh endpoint as a whole: the `jwt-refresh` guard authenticates
the presented token, then `AuthService.refresh` issues a brand-new pair
(rotating the stored record).  `jti` models the fresh `uuidv4()` of the
new issuance. -/
def refreshOp (tok : RefreshInput) (cfg : AuthConfig) (users : List User)
    (st : RedisState) (now : Nat) (jti : String) :
    Except RefreshErr (TokenPair × RedisState) :=
  match JwtRefreshStrategy.validate tok cfg users st now with
  | .error e => .error e
  | .ok user =>
    match AuthService.refresh user cfg jti now st with
    | .error _ => .error .storeError
    | .ok r => .ok r

/-! Concrete scenario states and tokens used to instantiate the theorems. -/

/-- A configuration with the spec defaults: 900 s access ttl, 604800 s
refresh ttl, distinct secrets. -/
def cfg0 : AuthConfig := ⟨"asec", "rsec", 900, 604800⟩

/-- A sample active subject. -/
def u1 : User := ⟨"u1", "u1@x", "pw", none, none, true, ["user"]⟩

/-- An empty, reachable store. -/
def redis0 : RedisState := ⟨true, fun _ => none⟩

/-- An unreachable store. -/
def redisDown : RedisState := ⟨false, fun _ => none⟩

/-- A refresh token for `u1` issued at t = 0. -/
def r1w : RefreshJwt := ⟨"u1", 0, 604800, "rsec"⟩

/-- A store holding the hash of `r1w` as the current refresh record. -/
def st1w : RedisState :=
  ⟨true, fun k => if k = RKey.refresh "u1" then some ⟨bcryptHash r1w, 700000⟩ else none⟩

/-- An access token for `u1` issued at t = 0. -/
def c2tok : AccessJwt := ⟨⟨"u1", "u1@x", ["user"], "j2w"⟩, 0, 900, "asec"⟩

/-- The store reached by logging `u1` out with jti `j2w` at t = 5 on an
empty store. -/
def c2st : RedisState :=
  ⟨true, fun k => if k = RKey.refresh "u1" then none
      else if k = RKey.blacklist "j2w" then some ⟨RVal.one, 905⟩ else none⟩

/-- An access token issued at t = 0 that expires at t = 900. -/
def c4tok : AccessJwt := ⟨⟨"u1", "u1@x", ["user"], "j4"⟩, 0, 900, "asec"⟩

/-- The store state after one `logout("u", "j")` at t = 0 on an empty
store. -/
def c6afterOne : RedisState :=
  match AuthService.logout redis0 "u" "j" 0 with
  | .ok (s, _) => s
  | .error _ => redis0

/-- An access token that is expired at t = 1000. -/
def c8tok : AccessJwt := ⟨⟨"u1", "u1@x", ["user"], "j8"⟩, 0, 900, "asec"⟩

/-- A well-signed access token whose subject is not in the directory. -/
def c9tok : AccessJwt := ⟨⟨"ghost", "g@x", ["user"], "j9c"⟩, 0, 900, "asec"⟩

/-- A deactivated subject. -/
def uInactive : User := ⟨"u2", "u2@x", "pw", none, none, false, ["user"]⟩

/-- A well-signed access token for the deactivated subject. -/
def c10tok : AccessJwt := ⟨⟨"u2", "u2@x", ["user"], "jX"⟩, 0, 900, "asec"⟩

theorem findById_id_eq (users : List User) (id : String) (u : User)
    (h : UsersService.findById users id = some u) : u.id = id := by
  unfold UsersService.findById at h
  induction users with
  | nil => simp [List.find?] at h
  | cons a l ih =>
    rw [List.find?] at h
    by_cases hb : (a.id == id) = true
    · rw [hb] at h
      cases h
      exact eq_of_beq hb
    · rw [Bool.not_eq_true] at hb
      rw [hb] at h
      exact ih h

theorem generateTokens_eq (u : User) (cfg : AuthConfig) (jti : String)
    (now : Nat) (st : RedisState) (havail : st.avail = true) :
    AuthService.generateTokens u cfg jti now st =
      .ok (⟨⟨⟨u.id, u.email, u.roles, jti⟩, now, now + cfg.accessExpiresIn, cfg.accessSecret⟩,
            ⟨u.id, now, now + cfg.refreshExpiresIn, cfg.refreshSecret⟩,
            ⟨u.id, u.email, u.roles⟩⟩,
           ⟨true, fun k => if k = RKey.refresh u.id then
               some ⟨bcryptHash ⟨u.id, now, now + cfg.refreshExpiresIn, cfg.refreshSecret⟩, now + 604800⟩
             else st.store k⟩) := by
  obtain ⟨a, s⟩ := st
  cases havail
  rfl

theorem refreshOp_eq (cfg : AuthConfig) (users : List User) (st : RedisState)
    (r : RefreshJwt) (u : User) (now : Nat) (jti : String)
    (havail : st.avail = true)
    (hsec : r.secret = cfg.refreshSecret)
    (hexp : now < r.exp)
    (hstored : TokenService.getRefreshToken st r.sub now = .ok (some (bcryptHash r)))
    (huser : UsersService.findById users r.sub = some u) :
    refreshOp (.jwt r) cfg users st now jti =
      .ok (⟨⟨⟨u.id, u.email, u.roles, jti⟩, now, now + cfg.accessExpiresIn, cfg.accessSecret⟩,
            ⟨u.id, now, now + cfg.refreshExpiresIn, cfg.refreshSecret⟩,
            ⟨u.id, u.email, u.roles⟩⟩,
           ⟨true, fun k => if k = RKey.refresh u.id then
               some ⟨bcryptHash ⟨u.id, now, now + cfg.refreshExpiresIn, cfg.refreshSecret⟩, now + 604800⟩
             else st.store k⟩) := by
  simp only [refreshOp, JwtRefreshStrategy.validate, JwtService.verifyRefresh]
  rw [if_pos ⟨hsec, hexp⟩]
  simp only [hstored, bcryptCompare, beq_self_eq_true, if_true, huser, AuthService.refresh]
  rw [generateTokens_eq u cfg jti now st havail]

theorem refreshOp_mismatch (cfg : AuthConfig) (users : List User) (st : RedisState)
    (r rt2 : RefreshJwt) (now : Nat) (jti : String) (expAt : Nat)
    (havail : st.avail = true)
    (hsec : r.secret = cfg.refreshSecret)
    (hexp : now < r.exp)
    (hstore : st.store (RKey.refresh r.sub) = some ⟨bcryptHash rt2, expAt⟩)
    (halive : now < expAt)
    (hne : rt2 ≠ r) :
    refreshOp (.jwt r) cfg users st now jti = .error .invalidToken := by
  have hcmp : bcryptCompare r (bcryptHash rt2) = false := by
    simp only [bcryptCompare, bcryptHash]
    exact beq_eq_false_iff_ne.mpr (fun h => hne (by injection h))
  simp only [refreshOp, JwtRefreshStrategy.validate, JwtService.verifyRefresh]
  rw [if_pos ⟨hsec, hexp⟩]
  simp only [TokenService.getRefreshToken, Redis.get, havail, if_true, hstore, halive, hcmp,
    Bool.false_eq_true, if_false]

theorem getRefresh_of_store (st : RedisState) (uid : String) (now : Nat)
    (v : RVal) (e : Nat) (havail : st.avail = true)
    (hs : st.store (RKey.refresh uid) = some ⟨v, e⟩) (h : now < e) :
    TokenService.getRefreshToken st uid now = .ok (some v) := by
  simp [TokenService.getRefreshToken, Redis.get, havail, hs, h]

theorem isBlacklisted_of_store (st : RedisState) (jti : String) (now : Nat)
    (v : RVal) (e : Nat) (havail : st.avail = true)
    (hs : st.store (RKey.blacklist jti) = some ⟨v, e⟩) (h : now < e) :
    TokenService.isBlacklisted st jti now = .ok true := by
  simp [TokenService.isBlacklisted, Redis.get, havail, hs, h]

theorem isBlacklisted_congr (st st2 : RedisState) (jti : String) (now : Nat)
    (ha : st2.avail = st.avail)
    (hs : st2.store (RKey.blacklist jti) = st.store (RKey.blacklist jti)) :
    TokenService.isBlacklisted st2 jti now = TokenService.isBlacklisted st jti now := by
  unfold TokenService.isBlacklisted Redis.get
  rw [ha, hs]

theorem logout_eq (st : RedisState) (uid jti : String) (now : Nat)
    (havail : st.avail = true) :
    AuthService.logout st uid jti now =
      .ok (⟨true, fun k => if k = RKey.refresh uid then none
          else if k = RKey.blacklist jti then some ⟨RVal.one, now + 15 * 60⟩
          else st.store k⟩, "Logged out successfully") := by
  obtain ⟨a, s⟩ := st
  cases havail
  rfl

theorem logout_avail (st st2 : RedisState) (uid jti msg : String) (now : Nat)
    (h : AuthService.logout st uid jti now = .ok (st2, msg)) : st.avail = true := by
  by_contra hB
  rw [Bool.not_eq_true] at hB
  unfold AuthService.logout TokenService.blacklistToken Redis.setEx at h
  rw [hB] at h
  simp at h

/-- C1: after `refresh(rt1)` succeeds producing a new refresh token, the
store holds only the new token's hash, so a subsequent `refresh(rt1)`
fails with `Invalid refresh token` (the `InvalidCredentials` outcome)
even though `rt1` has not expired. -/
theorem rotation_invalidates_used_refresh_token
    (cfg : AuthConfig) (users : List User) (st : RedisState)
    (r1 : RefreshJwt) (u : User) (t1 t2 : Nat) (jti1 jti2 : String)
    (havail : st.avail = true)
    (hsec : r1.secret = cfg.refreshSecret)
    (hexp1 : t1 < r1.exp)
    (hstored : TokenService.getRefreshToken st r1.sub t1 = .ok (some (bcryptHash r1)))
    (huser : UsersService.findById users r1.sub = some u)
    (hexp2 : t2 < r1.exp)
    (hrec : t2 < t1 + 604800)
    (hnew : r1.iat ≠ t1) :
    ∃ pair st2,
      refreshOp (.jwt r1) cfg users st t1 jti1 = .ok (pair, st2) ∧
      pair.refreshToken ≠ r1 ∧
      refreshOp (.jwt r1) cfg users st2 t2 jti2 = .error .invalidToken := by
  have hid : u.id = r1.sub := findById_id_eq users r1.sub u huser
  have h1 := refreshOp_eq cfg users st r1 u t1 jti1 havail hsec hexp1 hstored huser
  refine ⟨_, _, h1, ?_, ?_⟩
  · intro hcontra
    exact hnew (congrArg RefreshJwt.iat hcontra).symm
  · apply refreshOp_mismatch cfg users _ r1 ⟨u.id, t1, t1 + cfg.refreshExpiresIn, cfg.refreshSecret⟩
      t2 jti2 (t1 + 604800) rfl hsec hexp2 ?_ hrec ?_
    · show (if RKey.refresh r1.sub = RKey.refresh u.id then _ else st.store _) = _
      rw [if_pos (by rw [hid])]
    · intro hcontra
      exact hnew ((congrArg RefreshJwt.iat hcontra).symm)

theorem rotation_invalidates_used_refresh_token_witness :
    ∃ pair st2,
      refreshOp (.jwt r1w) cfg0 [u1] st1w 10 "jtiA" = .ok (pair, st2) ∧
      pair.refreshToken ≠ r1w ∧
      refreshOp (.jwt r1w) cfg0 [u1] st2 20 "jtiB" = .error .invalidToken :=
  rotation_invalidates_used_refresh_token cfg0 [u1] st1w r1w u1 10 20 "jtiA" "jtiB"
    rfl rfl (by decide) (by decide) (by decide) (by decide) (by decide) (by decide)

/-- C2: after `logout(sub, tid)`, validating an access token carrying
`jti = tid` returns invalid, even though its signature verifies and it is
unexpired at validation time. -/
theorem revocation_precedence
    (cfg : AuthConfig) (st st2 : RedisState) (t : AccessJwt)
    (uid msg : String) (tL now2 : Nat)
    (hlogout : AuthService.logout st uid t.payload.jti tL = .ok (st2, msg))
    (hsec : t.secret = cfg.accessSecret)
    (hunexp : now2 < t.exp)
    (hiat : t.iat ≤ tL)
    (hexp : t.exp = t.iat + cfg.accessExpiresIn)
    (httl : cfg.accessExpiresIn ≤ 15 * 60) :
    JwtService.verifyAccess (.jwt t) cfg.accessSecret now2 = some t.payload ∧
    AuthService.validateToken (.jwt t) cfg st2 now2 = ⟨false, none⟩ := by
  have havail := logout_avail st st2 uid t.payload.jti msg tL hlogout
  rw [logout_eq st uid t.payload.jti tL havail] at hlogout
  simp only [Except.ok.injEq, Prod.mk.injEq] at hlogout
  obtain ⟨h1, h2⟩ := hlogout
  subst h1
  have hverify : JwtService.verifyAccess (.jwt t) cfg.accessSecret now2 = some t.payload := by
    simp only [JwtService.verifyAccess]
    rw [if_pos ⟨hsec, hunexp⟩]
  refine ⟨hverify, ?_⟩
  have hbl : TokenService.isBlacklisted
      (⟨true, fun k => if k = RKey.refresh uid then none
          else if k = RKey.blacklist t.payload.jti then some ⟨RVal.one, tL + 15 * 60⟩
          else st.store k⟩ : RedisState) t.payload.jti now2 = .ok true := by
    apply isBlacklisted_of_store _ _ _ RVal.one (tL + 15 * 60) rfl ?_ (by omega)
    show (if RKey.blacklist t.payload.jti = RKey.refresh uid then none
        else if RKey.blacklist t.payload.jti = RKey.blacklist t.payload.jti
        then some ⟨RVal.one, tL + 15 * 60⟩
        else st.store (RKey.blacklist t.payload.jti)) = some ⟨RVal.one, tL + 15 * 60⟩
    rw [if_neg (by simp), if_pos rfl]
  simp only [AuthService.validateToken, AuthService.validateTokenTry, hverify, hbl]

theorem revocation_precedence_witness :
    JwtService.verifyAccess (.jwt c2tok) cfg0.accessSecret 10 = some c2tok.payload ∧
    AuthService.validateToken (.jwt c2tok) cfg0 c2st 10 = ⟨false, none⟩ :=
  revocation_precedence cfg0 redis0 c2st c2tok "u1" "Logged out successfully" 5 10
    rfl rfl (by decide) (by decide) rfl (by decide)

/-- C3: two sequential logins for the same subject leave exactly the second
refresh hash stored; the first refresh token then fails with
`Invalid refresh token`, while the second refresh token succeeds. -/
theorem single_active_session
    (cfg : AuthConfig) (users : List User) (st : RedisState) (u : User)
    (t1 t2 t3 : Nat) (jti1 jti2 jti3 : String)
    (havail : st.avail = true)
    (huser : UsersService.findById users u.id = some u)
    (hne : t1 ≠ t2)
    (hexp1 : t3 < t1 + cfg.refreshExpiresIn)
    (hexp2 : t3 < t2 + cfg.refreshExpiresIn)
    (hrec : t3 < t2 + 604800) :
    ∃ p1 st1 p2 st2,
      AuthService.login u cfg jti1 t1 st = .ok (p1, st1) ∧
      AuthService.login u cfg jti2 t2 st1 = .ok (p2, st2) ∧
      st2.store (RKey.refresh u.id) = some ⟨bcryptHash p2.refreshToken, t2 + 604800⟩ ∧
      refreshOp (.jwt p1.refreshToken) cfg users st2 t3 jti3 = .error .invalidToken ∧
      ∃ p3 st3, refreshOp (.jwt p2.refreshToken) cfg users st2 t3 jti3 = .ok (p3, st3) := by
  have h1 := generateTokens_eq u cfg jti1 t1 st havail
  have h2 := generateTokens_eq u cfg jti2 t2
      ⟨true, fun k => if k = RKey.refresh u.id then
          some ⟨bcryptHash ⟨u.id, t1, t1 + cfg.refreshExpiresIn, cfg.refreshSecret⟩, t1 + 604800⟩
        else st.store k⟩ rfl
  refine ⟨_, _, _, _, h1, h2, ?_, ?_, ?_⟩
  · show (if RKey.refresh u.id = RKey.refresh u.id then _ else _) = _
    rw [if_pos rfl]
  · apply refreshOp_mismatch cfg users _
      ⟨u.id, t1, t1 + cfg.refreshExpiresIn, cfg.refreshSecret⟩
      ⟨u.id, t2, t2 + cfg.refreshExpiresIn, cfg.refreshSecret⟩
      t3 jti3 (t2 + 604800) rfl rfl hexp1 ?_ hrec ?_
    · show (if RKey.refresh u.id = RKey.refresh u.id then _ else _) = _
      rw [if_pos rfl]
    · intro hcontra
      exact hne ((congrArg RefreshJwt.iat hcontra).symm)
  · refine ⟨_, _, refreshOp_eq cfg users _
      ⟨u.id, t2, t2 + cfg.refreshExpiresIn, cfg.refreshSecret⟩
      u t3 jti3 rfl rfl hexp2 ?_ huser⟩
    apply getRefresh_of_store _ _ _ _ (t2 + 604800) rfl ?_ hrec
    show (if RKey.refresh u.id = RKey.refresh u.id then _ else _) = _
    rw [if_pos rfl]

theorem single_active_session_witness :
    ∃ p1 st1 p2 st2,
      AuthService.login u1 cfg0 "ja" 0 redis0 = .ok (p1, st1) ∧
      AuthService.login u1 cfg0 "jb" 1 st1 = .ok (p2, st2) ∧
      st2.store (RKey.refresh u1.id) = some ⟨bcryptHash p2.refreshToken, 1 + 604800⟩ ∧
      refreshOp (.jwt p1.refreshToken) cfg0 [u1] st2 2 "jc" = .error .invalidToken ∧
      ∃ p3 st3, refreshOp (.jwt p2.refreshToken) cfg0 [u1] st2 2 "jc" = .ok (p3, st3) :=
  single_active_session cfg0 [u1] redis0 u1 0 1 2 "ja" "jb" "jc" rfl (by decide)
    (by decide) (by decide) (by decide) (by decide)

/-- C4 counterexample: logging out at t = 600 a token that expires at
t = 900 blacklists its jti until t = 1500; at t = 1000 the token is already
expired yet the revocation entry is still live, so the entry's ttl is the
fixed 900 seconds rather than the remaining lifetime, and it outlives the
token. -/
theorem logout_ttl_counterexample :
    (AuthService.logout redis0 "u1" "j4" 600).map
        (fun r => TokenService.isBlacklisted r.1 "j4" 1000) = .ok (.ok true) ∧
    JwtService.verifyAccess (.jwt c4tok) "asec" 1000 = none := by
  decide

/-- C4 amended: logout blacklists the token id with the fixed ttl of
`15 * 60` seconds (entry expiry = call instant + 900) and deletes the
subject's refresh record. -/
theorem logout_blacklists_fixed_ttl (st : RedisState) (uid jti : String)
    (now : Nat) (havail : st.avail = true) :
    ∃ st2, AuthService.logout st uid jti now = .ok (st2, "Logged out successfully") ∧
      st2.store (RKey.blacklist jti) = some ⟨RVal.one, now + 15 * 60⟩ ∧
      st2.store (RKey.refresh uid) = none := by
  refine ⟨_, logout_eq st uid jti now havail, ?_, ?_⟩
  · show (if RKey.blacklist jti = RKey.refresh uid then none
        else if RKey.blacklist jti = RKey.blacklist jti then some ⟨RVal.one, now + 15 * 60⟩
        else st.store (RKey.blacklist jti)) = some ⟨RVal.one, now + 15 * 60⟩
    rw [if_neg (by simp), if_pos rfl]
  · show (if RKey.refresh uid = RKey.refresh uid then none
        else if RKey.refresh uid = RKey.blacklist jti then some ⟨RVal.one, now + 15 * 60⟩
        else st.store (RKey.refresh uid)) = none
    rw [if_pos rfl]

theorem logout_blacklists_fixed_ttl_witness :
    ∃ st2, AuthService.logout redis0 "u1" "j9" 0 = .ok (st2, "Logged out successfully") ∧
      st2.store (RKey.blacklist "j9") = some ⟨RVal.one, 0 + 15 * 60⟩ ∧
      st2.store (RKey.refresh "u1") = none :=
  logout_blacklists_fixed_ttl redis0 "u1" "j9" 0 rfl

/-- C5: the remote validation operations never propagate a failure: every
exception thrown inside the try block (malformed token, bad signature,
expiry, store failure) is normalised to the tagged invalid result, an
unavailable store always yields invalid, and a valid result is only ever
produced when the store was reachable. -/
theorem validate_never_throws (tok : AccessInput) (cfg : AuthConfig)
    (st : RedisState) (now : Nat) :
    (∀ e, (AuthService.validateTokenTry tok cfg st now).1 = .error e →
      AuthService.validateToken tok cfg st now = ⟨false, none⟩ ∧
      AuthMicroserviceController.getUserFromToken tok cfg st now =
        .error "Invalid or expired token") ∧
    (st.avail = false →
      AuthService.validateToken tok cfg st now = ⟨false, none⟩ ∧
      AuthMicroserviceController.getUserFromToken tok cfg st now =
        .error "Invalid or expired token") ∧
    ((AuthService.validateToken tok cfg st now).valid = true → st.avail = true) := by
  have hnorm : ∀ e, (AuthService.validateTokenTry tok cfg st now).1 = .error e →
      AuthService.validateToken tok cfg st now = ⟨false, none⟩ := by
    intro e he
    simp only [AuthService.validateToken, he]
  have hget : AuthService.validateToken tok cfg st now = ⟨false, none⟩ →
      AuthMicroserviceController.getUserFromToken tok cfg st now =
        .error "Invalid or expired token" := by
    intro hr
    simp only [AuthMicroserviceController.getUserFromToken, hr]
    rfl
  have hfail : st.avail = false →
      AuthService.validateToken tok cfg st now = ⟨false, none⟩ := by
    intro hav
    cases hv : JwtService.verifyAccess tok cfg.accessSecret now with
    | none => exact hnorm .jwtError (by simp only [AuthService.validateTokenTry, hv])
    | some p =>
      refine hnorm .storeError ?_
      have hb : TokenService.isBlacklisted st p.jti now = .error .unavailable := by
        simp [TokenService.isBlacklisted, Redis.get, hav]
      simp only [AuthService.validateTokenTry, hv, hb]
  refine ⟨fun e he => ⟨hnorm e he, hget (hnorm e he)⟩,
    fun hav => ⟨hfail hav, hget (hfail hav)⟩, fun hvalid => ?_⟩
  by_contra hB
  rw [Bool.not_eq_true] at hB
  rw [hfail hB] at hvalid
  simp at hvalid

theorem validate_never_throws_witness :
    AuthService.validateToken (.garbage "zzz") cfg0 redisDown 7 = ⟨false, none⟩ ∧
    AuthMicroserviceController.getUserFromToken (.garbage "zzz") cfg0 redisDown 7 =
      .error "Invalid or expired token" :=
  (validate_never_throws (.garbage "zzz") cfg0 redisDown 7).2.1 rfl

/-- C6 counterexample: a second logout with the same arguments issued 100
seconds after the first refreshes the revocation entry's expiry from 900
to 1000, so the store state after two calls is not identical to the state
after one call once expirations are compared. -/
theorem logout_idempotence_counterexample :
    (AuthService.logout redis0 "u" "j" 0).map
        (fun r => r.1.store (RKey.blacklist "j")) = .ok (some ⟨RVal.one, 900⟩) ∧
    (AuthService.logout c6afterOne "u" "j" 100).map
        (fun r => r.1.store (RKey.blacklist "j")) = .ok (some ⟨RVal.one, 1000⟩) ∧
    some (REntry.mk RVal.one 1000) ≠ some (REntry.mk RVal.one 900) := by
  decide

/-- C6 amended: repeating `logout` with the same arguments at the same
instant never errors and returns exactly the state and message of the
first call. -/
theorem logout_idempotent_same_instant (st st1 : RedisState)
    (uid jti m1 : String) (now : Nat)
    (h : AuthService.logout st uid jti now = .ok (st1, m1)) :
    AuthService.logout st1 uid jti now = .ok (st1, m1) := by
  have havail := logout_avail st st1 uid jti m1 now h
  rw [logout_eq st uid jti now havail] at h
  simp only [Except.ok.injEq, Prod.mk.injEq] at h
  obtain ⟨h1, h2⟩ := h
  subst h1
  subst h2
  rw [logout_eq _ uid jti now rfl]
  have hg : (fun k => if k = RKey.refresh uid then none
      else if k = RKey.blacklist jti then some ⟨RVal.one, now + 15 * 60⟩
      else (RedisState.mk true (fun k' => if k' = RKey.refresh uid then none
        else if k' = RKey.blacklist jti then some ⟨RVal.one, now + 15 * 60⟩
        else st.store k')).store k)
      = (fun k' => if k' = RKey.refresh uid then none
        else if k' = RKey.blacklist jti then some ⟨RVal.one, now + 15 * 60⟩
        else st.store k') := by
    funext k
    by_cases hk1 : k = RKey.refresh uid
    · simp [hk1]
    · by_cases hk2 : k = RKey.blacklist jti
      · simp [hk1, hk2]
      · simp [hk1, hk2]
  rw [hg]

theorem logout_idempotent_same_instant_witness :
    AuthService.logout c6afterOne "u" "j" 0 = .ok (c6afterOne, "Logged out successfully") :=
  logout_idempotent_same_instant redis0 c6afterOne "u" "j" "Logged out successfully" 0 rfl

/-- C7: issuing a pair for a subject and immediately validating the access
token yields a valid result whose claims are exactly
`{subject.id, subject.email, subject.roles}` (plus the fresh jti). -/
theorem issue_validate_round_trip (u : User) (cfg : AuthConfig)
    (st : RedisState) (now : Nat) (jti : String)
    (havail : st.avail = true)
    (hfresh : TokenService.isBlacklisted st jti now = .ok false)
    (httl : 0 < cfg.accessExpiresIn) :
    ∃ pair st2,
      AuthService.generateTokens u cfg jti now st = .ok (pair, st2) ∧
      pair.user = ⟨u.id, u.email, u.roles⟩ ∧
      AuthService.validateToken (.jwt pair.accessToken) cfg st2 now =
        ⟨true, some ⟨u.id, u.email, u.roles, jti⟩⟩ := by
  refine ⟨_, _, generateTokens_eq u cfg jti now st havail, ?_, ?_⟩
  · rfl
  have hverify : JwtService.verifyAccess
      (.jwt ⟨⟨u.id, u.email, u.roles, jti⟩, now, now + cfg.accessExpiresIn, cfg.accessSecret⟩)
      cfg.accessSecret now = some ⟨u.id, u.email, u.roles, jti⟩ := by
    have hlt : now < now + cfg.accessExpiresIn := by omega
    simp [JwtService.verifyAccess, hlt]
  have hbl : TokenService.isBlacklisted
      (⟨true, fun k => if k = RKey.refresh u.id then
          some ⟨bcryptHash ⟨u.id, now, now + cfg.refreshExpiresIn, cfg.refreshSecret⟩, now + 604800⟩
        else st.store k⟩ : RedisState) jti now = .ok false := by
    rw [isBlacklisted_congr st _ jti now havail.symm ?_]
    · exact hfresh
    · show (if RKey.blacklist jti = RKey.refresh u.id then
          some ⟨bcryptHash ⟨u.id, now, now + cfg.refreshExpiresIn, cfg.refreshSecret⟩, now + 604800⟩
        else st.store (RKey.blacklist jti)) = st.store (RKey.blacklist jti)
      rw [if_neg (by simp)]
  simp only [AuthService.validateToken, AuthService.validateTokenTry, hverify, hbl]

theorem issue_validate_round_trip_witness :
    ∃ pair st2,
      AuthService.generateTokens u1 cfg0 "j7" 0 redis0 = .ok (pair, st2) ∧
      pair.user = ⟨u1.id, u1.email, u1.roles⟩ ∧
      AuthService.validateToken (.jwt pair.accessToken) cfg0 st2 0 =
        ⟨true, some ⟨u1.id, u1.email, u1.roles, "j7"⟩⟩ :=
  issue_validate_round_trip u1 cfg0 redis0 0 "j7" rfl (by decide) (by decide)

/-- C8: when JWT verification (signature or expiry, both local) fails,
validation returns invalid without any token-store read; when it succeeds,
the only store read is the blacklist key of the token's jti. -/
theorem validation_short_circuits (tok : AccessInput) (cfg : AuthConfig)
    (st : RedisState) (now : Nat) :
    (JwtService.verifyAccess tok cfg.accessSecret now = none →
      AuthService.validateTokenTry tok cfg st now = (.error .jwtError, []) ∧
      AuthService.validateToken tok cfg st now = ⟨false, none⟩ ∧
      AuthService.storeReads tok cfg st now = []) ∧
    (∀ p, JwtService.verifyAccess tok cfg.accessSecret now = some p →
      AuthService.storeReads tok cfg st now = [RKey.blacklist p.jti]) := by
  constructor
  · intro hv
    refine ⟨?_, ?_, ?_⟩ <;>
      simp only [AuthService.validateTokenTry, AuthService.validateToken,
        AuthService.storeReads, hv]
  · intro p hv
    simp only [AuthService.storeReads, AuthService.validateTokenTry, hv]
    cases hb : TokenService.isBlacklisted st p.jti now with
    | error e => rfl
    | ok b => cases b <;> rfl

theorem validation_short_circuits_witness :
    AuthService.validateTokenTry (.jwt c8tok) cfg0 redis0 1000 = (.error .jwtError, []) ∧
    AuthService.validateToken (.jwt c8tok) cfg0 redis0 1000 = ⟨false, none⟩ ∧
    AuthService.storeReads (.jwt c8tok) cfg0 redis0 1000 = [] :=
  (validation_short_circuits (.jwt c8tok) cfg0 redis0 1000).1 (by decide)

/-- C9 counterexample: with an empty user directory, the remote
`validateToken` accepts this signed, unexpired, unrevoked token while the
local guard rejects it, so the two paths do not accept exactly the same
tokens. -/
theorem guard_vs_remote_counterexample :
    AuthService.validateToken (.jwt c9tok) cfg0 redis0 0 = ⟨true, some c9tok.payload⟩ ∧
    JwtStrategy.validate (.jwt c9tok) cfg0 [] redis0 0 = .error .userNotFoundOrInactive := by
  decide

/-- C9 amended: the two paths share the signature, expiry and revocation
checks: every token the local guard accepts is accepted by the remote
operation with the same `sub` and `jti`, and whenever the remote operation
reports invalid the guard rejects; the remote variant maps an invalid
outcome to the structured error response.  The guard additionally requires
the subject to exist and be active in the directory and takes email and
roles from the directory record rather than the token. -/
theorem guard_refines_remote (tok : AccessInput) (cfg : AuthConfig)
    (users : List User) (st : RedisState) (now : Nat) :
    (∀ gu, JwtStrategy.validate tok cfg users st now = .ok gu →
      ∃ p u, JwtService.verifyAccess tok cfg.accessSecret now = some p ∧
        AuthService.validateToken tok cfg st now = ⟨true, some p⟩ ∧
        UsersService.findById users p.sub = some u ∧ u.isActive = true ∧
        gu = ⟨u.id, u.email, u.roles, p.jti⟩) ∧
    ((AuthService.validateToken tok cfg st now).valid = false →
      ∃ e, JwtStrategy.validate tok cfg users st now = .error e) ∧
    (AuthMicroserviceController.getUserFromToken tok cfg st now =
      if (AuthService.validateToken tok cfg st now).valid
      then .user (AuthService.validateToken tok cfg st now).payload
      else .error "Invalid or expired token") := by
  refine ⟨?_, ?_, rfl⟩
  · intro gu hg
    cases hv : JwtService.verifyAccess tok cfg.accessSecret now with
    | none => simp only [JwtStrategy.validate, hv] at hg; simp at hg
    | some p =>
      cases hb : TokenService.isBlacklisted st p.jti now with
      | error e => simp only [JwtStrategy.validate, hv, hb] at hg; simp at hg
      | ok b =>
        cases b with
        | true => simp only [JwtStrategy.validate, hv, hb] at hg; simp at hg
        | false =>
          cases hu : UsersService.findById users p.sub with
          | none => simp only [JwtStrategy.validate, hv, hb, hu] at hg; simp at hg
          | some u =>
            cases hA : u.isActive with
            | false => simp only [JwtStrategy.validate, hv, hb, hu, hA] at hg; simp at hg
            | true =>
              refine ⟨p, u, rfl, ?_, hu, hA, ?_⟩
              · simp only [AuthService.validateToken, AuthService.validateTokenTry, hv, hb]
              · simp only [JwtStrategy.validate, hv, hb, hu, hA, if_true,
                  Except.ok.injEq] at hg
                exact hg.symm
  · intro hinv
    cases hv : JwtService.verifyAccess tok cfg.accessSecret now with
    | none => exact ⟨.unauthorizedJwt, by simp only [JwtStrategy.validate, hv]⟩
    | some p =>
      cases hb : TokenService.isBlacklisted st p.jti now with
      | error e => exact ⟨.storeError, by simp only [JwtStrategy.validate, hv, hb]⟩
      | ok b =>
        cases b with
        | true => exact ⟨.revoked, by simp only [JwtStrategy.validate, hv, hb]⟩
        | false =>
          rw [show AuthService.validateToken tok cfg st now = ⟨true, some p⟩ from by
            simp only [AuthService.validateToken, AuthService.validateTokenTry, hv, hb]] at hinv
          simp at hinv

theorem guard_refines_remote_witness :
    ∃ e, JwtStrategy.validate (.garbage "junk") cfg0 [] redis0 0 = .error e :=
  (guard_refines_remote (.garbage "junk") cfg0 [] redis0 0).2.1 rfl

/-- C10: even when the token verifies and its jti is not blacklisted, the
local guard rejects it if the subject is missing from the directory or has
`isActive = false`. -/
theorem guard_requires_active_user (tok : AccessInput) (cfg : AuthConfig)
    (users : List User) (st : RedisState) (now : Nat) (p : AccessPayload)
    (hv : JwtService.verifyAccess tok cfg.accessSecret now = some p)
    (hb : TokenService.isBlacklisted st p.jti now = .ok false)
    (hu : UsersService.findById users p.sub = none ∨
      ∃ u, UsersService.findById users p.sub = some u ∧ u.isActive = false) :
    JwtStrategy.validate tok cfg users st now = .error .userNotFoundOrInactive := by
  simp only [JwtStrategy.validate, hv, hb]
  rcases hu with hu | ⟨u, hu, hA⟩
  · rw [hu]
  · rw [hu]
    simp [hA]

theorem guard_requires_active_user_witness :
    JwtStrategy.validate (.jwt c10tok) cfg0 [uInactive] redis0 0 =
      .error .userNotFoundOrInactive :=
  guard_requires_active_user (.jwt c10tok) cfg0 [uInactive] redis0 0 c10tok.payload
    (by decide) (by decide) (.inr ⟨uInactive, by decide, rfl⟩)
